import Mathlib

/-!
Verification of `src/src/mkhome.c` (ProFTPD home-on-demand support).

The C functions are shallowly embedded as pure Lean functions.  Interaction
with the operating system is captured by an oracle `FsEnv` giving the outcome
of each filesystem primitive, and each embedded function returns, besides the
C result value, a trace of the filesystem actions it performed, so that
"performs no mutation" and "walks every segment" style properties can be
stated.  The process-wide umask is threaded explicitly: `create_dir` receives
the umask in force before the call and returns the umask in force after it.
-/

set_option autoImplicit false
set_option linter.unusedVariables false

namespace Mkhome

/-- Outcome of a `pr_fsio_stat` call: success, failure with `ENOENT`, or
failure with any other errno. -/
inductive StatRes where
  | ok
  | enoent
  | err
deriving DecidableEq, Repr

/-- Oracle for the filesystem primitives used by `mkhome.c`.  Each field gives
the outcome of one primitive at a given path. -/
structure FsEnv where
  stat : String → StatRes
  mkdirOk : String → Bool
  chownOk : String → Bool
  srcOpenOk : String → Bool
  fileExists : String → Bool
  dstOpenOk : String → Bool
  lstatOk : String → Bool
  opendirOk : String → Bool
  readlinkOk : String → Bool
  symlinkOk : String → Bool
  linkTarget : String → String

/-- One filesystem action performed by `create_dir`. -/
inductive FsAction where
  | clearCache
  | statQ (p : String)
  | setUmask (m : Nat)
  | mkdirA (p : String) (mode : Nat)
  | chownA (p : String) (uid gid : Nat)
deriving DecidableEq, Repr

/-- Shallow embedding of `create_dir` (src/src/mkhome.c lines 33-73).  Given
the umask `um` in force before the call, returns the C result, the trace of
filesystem actions performed, and the umask in force after the call.  The C
code saves the previous mask in `prevmask` when it zeroes the mask, but its
two failure returns (mkdir failed, chown failed) return without executing the
final `umask(prevmask)`, so on those paths the returned umask is 0. -/
def create_dir (env : FsEnv) (dir : String) (uid gid mode um : Nat) :
    Int × List FsAction × Nat :=
  match env.stat dir with
  | .err => (-1, [.clearCache, .statQ dir], um)
  | .ok => (0, [.clearCache, .statQ dir], um)
  | .enoent =>
    if env.mkdirOk dir = false then
      (-1, [.clearCache, .statQ dir, .setUmask 0, .mkdirA dir mode], 0)
    else if env.chownOk dir = false then
      (-1, [.clearCache, .statQ dir, .setUmask 0, .mkdirA dir mode,
            .chownA dir uid gid], 0)
    else
      (0, [.clearCache, .statQ dir, .setUmask 0, .mkdirA dir mode,
           .chownA dir uid gid, .setUmask um], um)

/-- Modelled from the spec: ProFTPD helper `pdircat` (defined in `support.c`,
which is not among this repository sources) concatenates path components so
that the pieces are separated by exactly one slash; an empty second component
leaves the path unchanged. -/
def dircat (a b : String) : String :=
  if b = "" then a
  else if a.endsWith "/" && b.startsWith "/" then a ++ b.drop 1
  else if !a.endsWith "/" && !b.startsWith "/" then a ++ "/" ++ b
  else a ++ b

/-- The arguments of one `create_dir` call made by `create_path`. -/
structure DirCall where
  path : String
  uid : Nat
  gid : Nat
  mode : Nat
deriving DecidableEq, Repr

/-- The sequence of `create_dir` calls made by the `strsep` loop of
`create_path` (src/src/mkhome.c lines 92-106).  `curr` is `currpath` and
`segs` the pieces of the remaining `tmppath` split at slashes.  After `strsep`
extracts a piece, `tmppath` is `NULL` when no separator remained (`rest = []`)
and points at the empty string when the separator was the final character
(`rest = [""]`); in those two cases the loop is in its final iteration, uses
`dst_mode` with the caller uid/gid, and then exits.  Every earlier iteration
uses uid 0, gid 0 and `dir_mode`. -/
def walkSegs (uid gid dir_mode dst_mode : Nat) : String → List String → List DirCall
  | _, [] => []
  | curr, d :: rest =>
    let c2 := dircat curr d
    if rest = [] ∨ rest = [""] then [⟨c2, uid, gid, dst_mode⟩]
    else ⟨c2, 0, 0, dir_mode⟩ :: walkSegs uid gid dir_mode dst_mode c2 rest

/-- The `create_dir` calls `create_path` makes for a given path once the
initial existence check has failed.  The loop guard `while (tmppath && *tmppath)`
never runs for the empty string; otherwise the pieces are those produced by
repeated `strsep` at slashes, i.e. `path.splitOn "/"`, starting from
`currpath = "/"`. -/
def pathCalls (path : String) (uid gid dir_mode dst_mode : Nat) : List DirCall :=
  if path = "" then []
  else walkSegs uid gid dir_mode dst_mode "/" (path.splitOn "/")

/-- Runs the `create_dir` calls of `create_path` in order, threading the umask
through, and collects the result of each call (which the C code ignores). -/
def runCalls (env : FsEnv) : Nat → List DirCall → List Int × Nat
  | um, [] => ([], um)
  | um, c :: cs =>
    let r := create_dir env c.path c.uid c.gid c.mode um
    let rest := runCalls env r.2.2 cs
    (r.1 :: rest.1, rest.2)

/-- Shallow embedding of `create_path` (src/src/mkhome.c lines 78-110).
Returns the C result, the list of `create_dir` calls made, the result each of
those calls returned, and the final umask.  When the initial `pr_fsio_stat`
on the full path succeeds the function returns 0 at once; otherwise it walks
the segments, ignores every per-segment result, and returns 0. -/
def create_path (env : FsEnv) (path user : String)
    (uid gid dir_mode dst_mode um : Nat) :
    Int × List DirCall × List Int × Nat :=
  if env.stat path = .ok then (0, [], [], um)
  else
    let cs := pathCalls path uid gid dir_mode dst_mode
    let rs := runCalls env um cs
    (0, cs, rs.1, rs.2)

/-- The events of one `create_home` call that matter for the privilege
bracket: entering the elevated region, the `create_path` step, the optional
skeleton copy, and leaving the elevated region. -/
inductive HomeEvent where
  | privsRoot
  | privsRelinquish
  | pathStep (res : Int)
  | skelStep (res : Int)
deriving DecidableEq, Repr

/-- The body of `create_home` once the `CreateHome` config record has been
found enabled (src/src/mkhome.c lines 280-303), with the result of the
`create_path` call abstracted as `pathRes` and, when a skeleton directory is
configured, the result of the `copy_dir` call abstracted as `skel`.  On
`pathRes < 0` the code relinquishes and returns -1; otherwise it runs the
optional skeleton copy (ignoring its result), relinquishes and returns 0. -/
def create_home_body (pathRes : Int) (skel : Option Int) : Int × List HomeEvent :=
  if pathRes < 0 then
    (-1, [.privsRoot, .pathStep pathRes, .privsRelinquish])
  else
    (0, [.privsRoot, .pathStep pathRes] ++
        (match skel with
         | none => []
         | some r => [.skelStep r]) ++
        [.privsRelinquish])

/-- The `S_ISUID` bit (octal 4000), bit 11 of a `mode_t`. -/
def S_ISUID : Nat := 0o4000

/-- The `S_ISGID` bit (octal 2000), bit 10 of a `mode_t`. -/
def S_ISGID : Nat := 0o2000

/-- All bits of a 32-bit `mode_t`; the C complement `~x` of a `mode_t` value
is `MODE_BITS ^^^ x`. -/
def MODE_BITS : Nat := 2 ^ 32 - 1

/-- The set-id stripping `copy_dir` performs on `st.st_mode` before copying a
regular file (src/src/mkhome.c lines 238-246): `dst_mode &= ~S_ISUID` and then
`dst_mode &= ~S_ISGID`, each applied only when the corresponding bit is set. -/
def stripSetId (m : Nat) : Nat :=
  let m1 := if m &&& S_ISUID ≠ 0 then m &&& (MODE_BITS ^^^ S_ISUID) else m
  if m1 &&& S_ISGID ≠ 0 then m1 &&& (MODE_BITS ^^^ S_ISGID) else m1

/-- The trace of one `copy_file` call. -/
inductive FileAction where
  | openRead (p : String)
  | openExcl (p : String)
  | truncateA (p : String) (len : Nat)
  | transfer (src dst : String)
  | chownF (p : String) (uid gid : Nat)
  | chmodF (p : String) (mode : Nat)
  | closeF (p : String)
deriving DecidableEq, Repr

/-- Shallow embedding of `copy_file` (src/src/mkhome.c lines 112-161).  The
source is opened `O_RDONLY`; the destination is opened
`O_WRONLY|O_CREAT|O_EXCL`, which fails when the destination already exists
(`env.fileExists dst`) and may also fail for other reasons
(`env.dstOpenOk dst = false`).  On success the destination is truncated to
zero, the data is streamed across, and ownership and mode are applied (their
failures are logged and non-fatal), so the function returns 0. -/
def copy_file (env : FsEnv) (src dst : String) (uid gid mode : Nat) :
    Int × List FileAction :=
  if env.srcOpenOk src = false then (-1, [.openRead src])
  else if env.fileExists dst || !env.dstOpenOk dst then
    (-1, [.openRead src, .openExcl dst, .closeF src])
  else
    (0, [.openRead src, .openExcl dst, .truncateA dst 0, .transfer src dst,
         .chownF dst uid gid, .chmodF dst mode, .closeF src, .closeF dst])

/-- In `copy_symlink`, `link_path` is declared `char *link_path = pcalloc(p,
PR_TUNABLE_BUFFER_SIZE)`, so the `sizeof(link_path)` in the readlink call is
the size of a pointer: 8 bytes on an LP64 platform. -/
def PTR_BYTES : Nat := 8

/-- Shallow embedding of `copy_symlink` (src/src/mkhome.c lines 163-193).
`pr_fsio_readlink(src_path, link_path, sizeof(link_path)-1)` fills at most
`PTR_BYTES - 1` bytes of the link target, so the string the function goes on
to use is `(env.linkTarget src_path).take (PTR_BYTES - 1)`.  If that string
begins with `src_dir`, the matched portion is replaced by `dst_dir` via
`pdircat`.  Returns the C result and, when a symlink was created, the target
written into it.  The final chown failure is logged and non-fatal. -/
def copy_symlink (env : FsEnv) (src_dir src_path dst_dir dst_path : String)
    (uid gid : Nat) : Int × Option String :=
  if env.readlinkOk src_path = false then (-1, none)
  else
    let link0 := (env.linkTarget src_path).take (PTR_BYTES - 1)
    let link1 :=
      if link0.startsWith src_dir then dircat dst_dir (link0.drop src_dir.length)
      else link0
    if env.symlinkOk dst_path = false then (-1, none)
    else (0, some link1)

/-- One entry of a skeleton directory listing, as classified by the
`pr_fsio_lstat` in `copy_dir`: a subdirectory (with its own listing), a
regular file, a symlink (its target is read from the filesystem via
`env.linkTarget`), or any other file type. -/
inductive SkelEntry where
  | dir (name : String) (mode : Nat) (entries : List SkelEntry)
  | file (name : String) (mode : Nat)
  | symlink (name : String)
  | other (name : String)

/-- The `d_name` of a skeleton entry. -/
def SkelEntry.name : SkelEntry → String
  | .dir n _ _ => n
  | .file n _ => n
  | .symlink n => n
  | .other n => n

/-- One action of the `readdir` loop of `copy_dir`, with the result the
nested call returned where the loop observes one. -/
inductive CopyAction where
  | createDirA (dst : String) (uid gid mode : Nat)
  | copyFileA (src dst : String) (uid gid mode : Nat) (res : Int)
  | copySymlinkA (src dst : String) (uid gid : Nat) (res : Int)
      (target : Option String)
  | skipOther (src : String)
  | skipStat (src : String)
deriving DecidableEq, Repr

mutual

/-- One iteration of the `readdir` loop of `copy_dir` (src/src/mkhome.c lines
211-263): skip `.` and `..`; skip entries the `pr_fsio_lstat` fails on; for a
directory, call `create_dir` on the destination with the full source
`st.st_mode` and recurse (the recursive `copy_dir` first does `opendir`,
whose failure ends that subtree); for a regular file, `copy_file` with the
set-id bits stripped from the source mode; for a symlink, `copy_symlink`;
skip every other file type. -/
def copyEntry (env : FsEnv) (src_dir dst_dir : String) (uid gid : Nat)
    (e : SkelEntry) : List CopyAction :=
  let src_path := dircat src_dir e.name
  let dst_path := dircat dst_dir e.name
  if e.name = "." ∨ e.name = ".." then []
  else if env.lstatOk src_path = false then [.skipStat src_path]
  else
    match e with
    | .dir _ m sub =>
      .createDirA dst_path uid gid m ::
        (if env.opendirOk src_path = false then []
         else copyList env src_path dst_path uid gid sub)
    | .file _ m =>
      let r := copy_file env src_path dst_path uid gid (stripSetId m)
      [.copyFileA src_path dst_path uid gid (stripSetId m) r.1]
    | .symlink _ =>
      let r := copy_symlink env src_dir src_path dst_dir dst_path uid gid
      [.copySymlinkA src_path dst_path uid gid r.1 r.2]
    | .other _ => [.skipOther src_path]

/-- The whole `readdir` loop of `copy_dir`: each entry is processed with
`copyEntry` and the loop always continues with the remaining entries,
whatever the results of the nested calls were. -/
def copyList (env : FsEnv) (src_dir dst_dir : String) (uid gid : Nat) :
    List SkelEntry → List CopyAction
  | [] => []
  | e :: rest =>
    copyEntry env src_dir dst_dir uid gid e ++
      copyList env src_dir dst_dir uid gid rest

end

/-- Shallow embedding of `copy_dir` (src/src/mkhome.c lines 199-267), where
`entries` is the `readdir` listing of `src_dir`.  The only failure return is
a failed `opendir`; once the loop has run the function returns 0. -/
def copy_dir (env : FsEnv) (src_dir dst_dir : String) (uid gid : Nat)
    (entries : List SkelEntry) : Int × List CopyAction :=
  if env.opendirOk src_dir = false then (-1, [])
  else (0, copyList env src_dir dst_dir uid gid entries)

/-- The values `create_home` reads out of the `CreateHome` config record:
`argv[0]` is the enabled flag, `argv[1]` the leaf (`dst_mode`) mode,
`argv[2]` the intermediate (`dir_mode`) mode, `argv[3]` the optional
skeleton directory. -/
structure Config where
  enabled : Bool
  dst_mode : Nat
  dir_mode : Nat
  skel_dir : Option String
deriving DecidableEq, Repr

/-- Shallow embedding of `create_home` (src/src/mkhome.c lines 272-304).
`skelEntries` is the listing of the configured skeleton directory when there
is one.  With the feature disabled (no config record, or flag false) the
function returns 0 immediately without entering the privilege bracket;
otherwise it runs `create_home_body` on the results of the `create_path`
and optional `copy_dir` calls. -/
def create_home (env : FsEnv) (cfg : Config) (home user : String)
    (uid gid um : Nat) (skelEntries : List SkelEntry) : Int × List HomeEvent :=
  if cfg.enabled = false then (0, [])
  else
    create_home_body
      (create_path env home user uid gid cfg.dir_mode cfg.dst_mode um).1
      (cfg.skel_dir.map fun s => (copy_dir env s home uid gid skelEntries).1)

/-- Abstract on-disk directory store: a path maps to the (uid, gid, mode) of
the directory there, or to `none` when nothing exists there. -/
def FsMap := String → Option (Nat × Nat × Nat)

/-- Effect of one `create_dir` action on the directory store.  Cache
invalidation, stat queries and umask changes do not touch the store; `mkdir`
creates the path (owned by the calling root identity before any chown) and
`chown` re-owns it. -/
def applyAction (fs : FsMap) : FsAction → FsMap
  | .clearCache => fs
  | .statQ _ => fs
  | .setUmask _ => fs
  | .mkdirA p mode => fun q => if q = p then some (0, 0, mode) else fs q
  | .chownA p uid gid => fun q =>
      if q = p then
        match fs q with
        | some (_, _, m) => some (uid, gid, m)
        | none => none
      else fs q

/-- Effect of a whole `create_dir` action trace on the directory store. -/
def applyActions (acts : List FsAction) (fs : FsMap) : FsMap :=
  acts.foldl applyAction fs

/-- Both returns of `create_path` are `return 0`, so it reports success on
every input. -/
theorem create_path_fst_eq_zero (env : FsEnv) (path user : String)
    (uid gid dir_mode dst_mode um : Nat) :
    (create_path env path user uid gid dir_mode dst_mode um).1 = 0 := by
  unfold create_path
  split <;> rfl

/-- Running the calls produces one observed result per planned call. -/
theorem runCalls_fst_length (env : FsEnv) :
    ∀ (um : Nat) (cs : List DirCall), (runCalls env um cs).1.length = cs.length
  | _, [] => rfl
  | um, c :: cs => by
    simp [runCalls, runCalls_fst_length]

/-- C9: with `CreateHome` enabled, `create_home` always returns 0.
`create_path` returns 0 on every input, so the branch of `create_home`
guarded by `create_path(...) < 0` is unreachable and the caller of the entry point
never observes a failure result, whatever the filesystem oracle answers. -/
theorem create_home_always_succeeds (env : FsEnv) (cfg : Config)
    (home user : String) (uid gid um : Nat) (skel : List SkelEntry)
    (h : cfg.enabled = true) :
    (create_home env cfg home user uid gid um skel).1 = 0 ∧
    ∀ (env2 : FsEnv) (path2 user2 : String) (uid2 gid2 dm2 lm2 um2 : Nat),
      (create_path env2 path2 user2 uid2 gid2 dm2 lm2 um2).1 = 0 := by
  constructor
  · simp [create_home, h, create_home_body, create_path_fst_eq_zero]
  · intro env2 path2 user2 uid2 gid2 dm2 lm2 um2
    exact create_path_fst_eq_zero env2 path2 user2 uid2 gid2 dm2 lm2 um2

/-- Witness for C9 at a concrete enabled configuration. -/
theorem create_home_always_succeeds_witness :
    (Config.mk true 493 456 none).enabled = true ∧
    (create_home
      (FsEnv.mk (fun _ => .enoent) (fun _ => true) (fun _ => true)
        (fun _ => true) (fun _ => false) (fun _ => true) (fun _ => true)
        (fun _ => true) (fun _ => true) (fun _ => true) (fun _ => ""))
      (Config.mk true 493 456 none) "/home/alice" "alice" 1001 1001 18 []).1 = 0 :=
  ⟨rfl,
   (create_home_always_succeeds
      (FsEnv.mk (fun _ => .enoent) (fun _ => true) (fun _ => true)
        (fun _ => true) (fun _ => false) (fun _ => true) (fun _ => true)
        (fun _ => true) (fun _ => true) (fun _ => true) (fun _ => ""))
      (Config.mk true 493 456 none) "/home/alice" "alice" 1001 1001 18 []
      rfl).1⟩

/-- C4: when the initial stat of the full path does not succeed, `create_path`
walks every segment to completion — the sequence of `create_dir` calls is
exactly `pathCalls`, independent of the filesystem oracle (and hence of every
per-segment failure), one result is observed per call, and the function
returns 0 regardless of those results. -/
theorem create_path_ignores_segment_failures
    (env env2 : FsEnv) (path user : String)
    (uid gid dir_mode dst_mode um um2 : Nat)
    (h : env.stat path ≠ .ok) (h2 : env2.stat path ≠ .ok) :
    (create_path env path user uid gid dir_mode dst_mode um).1 = 0 ∧
    (create_path env path user uid gid dir_mode dst_mode um).2.1 =
      pathCalls path uid gid dir_mode dst_mode ∧
    (create_path env path user uid gid dir_mode dst_mode um).2.1 =
      (create_path env2 path user uid gid dir_mode dst_mode um2).2.1 ∧
    (create_path env path user uid gid dir_mode dst_mode um).2.2.1.length =
      (create_path env path user uid gid dir_mode dst_mode um).2.1.length := by
  unfold create_path
  rw [if_neg h, if_neg h2]
  exact ⟨rfl, rfl, rfl, runCalls_fst_length env um _⟩

/-- Witness for C4: an environment in which every `create_dir` call fails
(every mkdir fails), yet `create_path` still returns 0. -/
theorem create_path_ignores_segment_failures_witness :
    (FsEnv.mk (fun _ => .enoent) (fun _ => false) (fun _ => true)
        (fun _ => true) (fun _ => false) (fun _ => true) (fun _ => true)
        (fun _ => true) (fun _ => true) (fun _ => true) (fun _ => "")).stat
      "/home/alice" ≠ .ok ∧
    (create_path
      (FsEnv.mk (fun _ => .enoent) (fun _ => false) (fun _ => true)
        (fun _ => true) (fun _ => false) (fun _ => true) (fun _ => true)
        (fun _ => true) (fun _ => true) (fun _ => true) (fun _ => ""))
      "/home/alice" "alice" 1001 1001 456 493 18).1 = 0 :=
  ⟨by decide,
   (create_path_ignores_segment_failures
      (FsEnv.mk (fun _ => .enoent) (fun _ => false) (fun _ => true)
        (fun _ => true) (fun _ => false) (fun _ => true) (fun _ => true)
        (fun _ => true) (fun _ => true) (fun _ => true) (fun _ => ""))
      (FsEnv.mk (fun _ => .enoent) (fun _ => false) (fun _ => true)
        (fun _ => true) (fun _ => false) (fun _ => true) (fun _ => true)
        (fun _ => true) (fun _ => true) (fun _ => true) (fun _ => ""))
      "/home/alice" "alice" 1001 1001 456 493 18 18
      (by decide) (by decide)).1⟩

/-- C2: every `create_home` call that enters the elevated-privilege region
relinquishes it exactly once, as its final event, on the failure branch of
the body as well as on the success branch; the enabled `create_home` trace
itself enters the region once and ends with the single relinquish. -/
theorem create_home_relinquishes_once (env : FsEnv) (cfg : Config)
    (home user : String) (uid gid um : Nat) (skel : List SkelEntry)
    (h : cfg.enabled = true) :
    (∀ (pathRes : Int) (sk : Option Int),
        (create_home_body pathRes sk).2.count .privsRoot = 1 ∧
        (create_home_body pathRes sk).2.count .privsRelinquish = 1 ∧
        (create_home_body pathRes sk).2.getLast? = some .privsRelinquish) ∧
    ((create_home env cfg home user uid gid um skel).2.count .privsRoot = 1 ∧
     (create_home env cfg home user uid gid um skel).2.count .privsRelinquish = 1 ∧
     (create_home env cfg home user uid gid um skel).2.getLast? =
       some .privsRelinquish) := by
  have hbody : ∀ (pathRes : Int) (sk : Option Int),
      (create_home_body pathRes sk).2.count .privsRoot = 1 ∧
      (create_home_body pathRes sk).2.count .privsRelinquish = 1 ∧
      (create_home_body pathRes sk).2.getLast? = some .privsRelinquish := by
    intro pathRes sk
    unfold create_home_body
    split
    · exact ⟨by simp [List.count_cons], by simp [List.count_cons], rfl⟩
    · cases sk <;>
        exact ⟨by simp [List.count_cons], by simp [List.count_cons], rfl⟩
  refine ⟨hbody, ?_⟩
  have hh : (create_home env cfg home user uid gid um skel).2 =
      (create_home_body
        (create_path env home user uid gid cfg.dir_mode cfg.dst_mode um).1
        (cfg.skel_dir.map fun s => (copy_dir env s home uid gid skel).1)).2 := by
    simp [create_home, h]
  rw [hh]
  exact hbody _ _

/-- Witness for C2 at a concrete enabled configuration with a skeleton. -/
theorem create_home_relinquishes_once_witness :
    (Config.mk true 493 456 (some "/etc/skel")).enabled = true ∧
    (create_home
      (FsEnv.mk (fun _ => .enoent) (fun _ => true) (fun _ => true)
        (fun _ => true) (fun _ => false) (fun _ => true) (fun _ => true)
        (fun _ => true) (fun _ => true) (fun _ => true) (fun _ => ""))
      (Config.mk true 493 456 (some "/etc/skel")) "/home/alice" "alice"
      1001 1001 18 []).2.getLast? = some .privsRelinquish :=
  ⟨rfl,
   ((create_home_relinquishes_once
      (FsEnv.mk (fun _ => .enoent) (fun _ => true) (fun _ => true)
        (fun _ => true) (fun _ => false) (fun _ => true) (fun _ => true)
        (fun _ => true) (fun _ => true) (fun _ => true) (fun _ => ""))
      (Config.mk true 493 456 (some "/etc/skel")) "/home/alice" "alice"
      1001 1001 18 [] rfl).2).2.2⟩

/-- C7: when the existence check of `create_dir` succeeds, the function
returns 0, the umask is unchanged, the trace holds only the cache
invalidation and the stat query, and the run leaves every abstract directory
store exactly as it was, so a pre-existing directory is never re-owned or
re-moded and repeating the call repeats the identical no-op. -/
theorem create_dir_existing_is_noop (env : FsEnv) (dir : String)
    (uid gid mode um : Nat) (h : env.stat dir = .ok) :
    (create_dir env dir uid gid mode um).1 = 0 ∧
    (create_dir env dir uid gid mode um).2.2 = um ∧
    (∀ a ∈ (create_dir env dir uid gid mode um).2.1,
        a = FsAction.clearCache ∨ a = FsAction.statQ dir) ∧
    ∀ fs : FsMap, applyActions (create_dir env dir uid gid mode um).2.1 fs = fs := by
  have htr : create_dir env dir uid gid mode um =
      (0, [.clearCache, .statQ dir], um) := by
    unfold create_dir
    rw [h]
  rw [htr]
  refine ⟨rfl, rfl, ?_, fun fs => rfl⟩
  intro a ha
  simp only [List.mem_cons, List.not_mem_nil, or_false] at ha
  rcases ha with ha | ha
  · exact Or.inl ha
  · exact Or.inr ha

/-- Witness for C7 on a concrete environment where the directory exists. -/
theorem create_dir_existing_is_noop_witness :
    (FsEnv.mk (fun _ => .ok) (fun _ => true) (fun _ => true)
        (fun _ => true) (fun _ => false) (fun _ => true) (fun _ => true)
        (fun _ => true) (fun _ => true) (fun _ => true) (fun _ => "")).stat
      "/home" = .ok ∧
    (create_dir
      (FsEnv.mk (fun _ => .ok) (fun _ => true) (fun _ => true)
        (fun _ => true) (fun _ => false) (fun _ => true) (fun _ => true)
        (fun _ => true) (fun _ => true) (fun _ => true) (fun _ => ""))
      "/home" 1001 1001 493 18).1 = 0 :=
  ⟨rfl,
   (create_dir_existing_is_noop
      (FsEnv.mk (fun _ => .ok) (fun _ => true) (fun _ => true)
        (fun _ => true) (fun _ => false) (fun _ => true) (fun _ => true)
        (fun _ => true) (fun _ => true) (fun _ => true) (fun _ => ""))
      "/home" 1001 1001 493 18 rfl).1⟩

/-- C5 is false of the code: `create_dir` zeroes the umask, but its two
failure returns (mkdir failed, chown failed) return without executing the
final `umask(prevmask)`.  Here the previous mask is 0o22 = 18, the directory
does not exist, mkdir fails, and after the call the process umask is 0, not
18; the sibling conjunct shows the chown-failure return leaks the mask the
same way. -/
theorem create_dir_umask_not_restored_on_failure :
    ((create_dir
        (FsEnv.mk (fun _ => .enoent) (fun _ => false) (fun _ => true)
          (fun _ => true) (fun _ => false) (fun _ => true) (fun _ => true)
          (fun _ => true) (fun _ => true) (fun _ => true) (fun _ => ""))
        "/home/alice" 1001 1001 493 18).1 = -1 ∧
     (create_dir
        (FsEnv.mk (fun _ => .enoent) (fun _ => false) (fun _ => true)
          (fun _ => true) (fun _ => false) (fun _ => true) (fun _ => true)
          (fun _ => true) (fun _ => true) (fun _ => true) (fun _ => ""))
        "/home/alice" 1001 1001 493 18).2.2 = 0) ∧
    ((create_dir
        (FsEnv.mk (fun _ => .enoent) (fun _ => true) (fun _ => false)
          (fun _ => true) (fun _ => false) (fun _ => true) (fun _ => true)
          (fun _ => true) (fun _ => true) (fun _ => true) (fun _ => ""))
        "/home/alice" 1001 1001 493 18).1 = -1 ∧
     (create_dir
        (FsEnv.mk (fun _ => .enoent) (fun _ => true) (fun _ => false)
          (fun _ => true) (fun _ => false) (fun _ => true) (fun _ => true)
          (fun _ => true) (fun _ => true) (fun _ => true) (fun _ => ""))
        "/home/alice" 1001 1001 493 18).2.2 = 0) ∧
    (18 : Nat) ≠ 0 := by
  refine ⟨⟨rfl, rfl⟩, ⟨rfl, rfl⟩, by decide⟩

/-- Unfolding equation for one iteration of the `strsep` loop. -/
theorem walkSegs_cons (uid gid dir_mode dst_mode : Nat) (curr d : String)
    (rest : List String) :
    walkSegs uid gid dir_mode dst_mode curr (d :: rest) =
      if rest = [] ∨ rest = [""] then
        [⟨dircat curr d, uid, gid, dst_mode⟩]
      else
        ⟨dircat curr d, 0, 0, dir_mode⟩ ::
          walkSegs uid gid dir_mode dst_mode (dircat curr d) rest := rfl

/-- The calls of a non-empty `strsep` walk split as intermediate calls
followed by one final call; every intermediate call carries uid 0, gid 0 and
`dir_mode`, the final call the caller uid/gid and `dst_mode`. -/
theorem walkSegs_struct (uid gid dir_mode dst_mode : Nat) :
    ∀ (segs : List String) (curr : String), segs ≠ [] →
      ∃ (mids : List DirCall) (leaf : DirCall),
        walkSegs uid gid dir_mode dst_mode curr segs = mids ++ [leaf] ∧
        (∀ c ∈ mids, c.uid = 0 ∧ c.gid = 0 ∧ c.mode = dir_mode) ∧
        leaf.uid = uid ∧ leaf.gid = gid ∧ leaf.mode = dst_mode := by
  intro segs
  induction segs with
  | nil => exact fun curr h => absurd rfl h
  | cons d rest ih =>
    intro curr _
    by_cases hr : rest = [] ∨ rest = [""]
    · refine ⟨[], ⟨dircat curr d, uid, gid, dst_mode⟩, ?_, ?_, rfl, rfl, rfl⟩
      · rw [walkSegs_cons, if_pos hr]
        rfl
      · intro c hc
        exact absurd hc (List.not_mem_nil c)
    · have hrne : rest ≠ [] := fun hh => hr (Or.inl hh)
      obtain ⟨mids, leaf, heq, hmids, hl1, hl2, hl3⟩ := ih (dircat curr d) hrne
      refine ⟨⟨dircat curr d, 0, 0, dir_mode⟩ :: mids, leaf, ?_, ?_, hl1, hl2, hl3⟩
      · rw [walkSegs_cons, if_neg hr, heq]
        rfl
      · intro c hc
        rcases List.mem_cons.mp hc with hc | hc
        · subst hc
          exact ⟨rfl, rfl, rfl⟩
        · exact hmids c hc

/-- C1: for a target path whose initial existence check fails, every
`create_dir` call made by `create_path` except the last carries uid 0, gid 0
and the configured intermediate `dir_mode`, and the last call — the one for
the leaf — carries the caller-supplied uid and gid and the configured leaf
`dst_mode`. -/
theorem create_path_root_owns_intermediates
    (env : FsEnv) (path user : String) (uid gid dir_mode dst_mode um : Nat)
    (h : env.stat path ≠ .ok) :
    (∀ c ∈ (create_path env path user uid gid dir_mode dst_mode um).2.1.dropLast,
        c.uid = 0 ∧ c.gid = 0 ∧ c.mode = dir_mode) ∧
    ((create_path env path user uid gid dir_mode dst_mode um).2.1 = [] ∨
      ∃ leaf : DirCall,
        (create_path env path user uid gid dir_mode dst_mode um).2.1.getLast? =
          some leaf ∧
        leaf.uid = uid ∧ leaf.gid = gid ∧ leaf.mode = dst_mode) := by
  have hcs : (create_path env path user uid gid dir_mode dst_mode um).2.1 =
      pathCalls path uid gid dir_mode dst_mode := by
    unfold create_path
    rw [if_neg h]
  rw [hcs]
  unfold pathCalls
  by_cases hp : path = ""
  · rw [if_pos hp]
    exact ⟨fun c hc => absurd hc (List.not_mem_nil c), Or.inl rfl⟩
  · rw [if_neg hp]
    cases hsegs : path.splitOn "/" with
    | nil =>
      exact ⟨fun c hc => absurd hc (List.not_mem_nil c), Or.inl rfl⟩
    | cons d rest =>
      obtain ⟨mids, leaf, heq, hmids, hl1, hl2, hl3⟩ :=
        walkSegs_struct uid gid dir_mode dst_mode (d :: rest) "/"
          (List.cons_ne_nil d rest)
      rw [heq]
      constructor
      · intro c hc
        rw [List.dropLast_concat] at hc
        exact hmids c hc
      · exact Or.inr ⟨leaf, List.getLast?_concat mids, hl1, hl2, hl3⟩

/-- Witness for C1 on the path "/home/alice": the walk creates "/", "/home"
as intermediates and "/home/alice" as the leaf. -/
theorem create_path_root_owns_intermediates_witness :
    (FsEnv.mk (fun _ => .enoent) (fun _ => true) (fun _ => true)
        (fun _ => true) (fun _ => false) (fun _ => true) (fun _ => true)
        (fun _ => true) (fun _ => true) (fun _ => true) (fun _ => "")).stat
      "/home/alice" ≠ .ok ∧
    ∀ c ∈ (create_path
        (FsEnv.mk (fun _ => .enoent) (fun _ => true) (fun _ => true)
          (fun _ => true) (fun _ => false) (fun _ => true) (fun _ => true)
          (fun _ => true) (fun _ => true) (fun _ => true) (fun _ => ""))
        "/home/alice" "alice" 1001 1001 456 493 18).2.1.dropLast,
      c.uid = 0 ∧ c.gid = 0 ∧ c.mode = 456 :=
  ⟨by decide,
   (create_path_root_owns_intermediates
      (FsEnv.mk (fun _ => .enoent) (fun _ => true) (fun _ => true)
        (fun _ => true) (fun _ => false) (fun _ => true) (fun _ => true)
        (fun _ => true) (fun _ => true) (fun _ => true) (fun _ => ""))
      "/home/alice" "alice" 1001 1001 456 493 18 (by decide)).1⟩

/-- A filesystem oracle in which nothing exists yet and every operation
succeeds. -/
def envT : FsEnv :=
  { stat := fun _ => .enoent
    mkdirOk := fun _ => true
    chownOk := fun _ => true
    srcOpenOk := fun _ => true
    fileExists := fun _ => false
    dstOpenOk := fun _ => true
    lstatOk := fun _ => true
    opendirOk := fun _ => true
    readlinkOk := fun _ => true
    symlinkOk := fun _ => true
    linkTarget := fun _ => "" }

/-- Variant of `envT` where every symlink read yields the target "/outside/elsewhere". -/
def envLink : FsEnv := { envT with linkTarget := fun _ => "/outside/elsewhere" }

/-- Variant of `envT` where a file already exists at every destination path. -/
def envDstExists : FsEnv := { envT with fileExists := fun _ => true }

/-- The value `x &&& 2^k` is nonzero exactly when bit `k` of `x` is set. -/
theorem land_two_pow_ne_zero_iff (m k : Nat) :
    m &&& 2 ^ k ≠ 0 ↔ m.testBit k = true := by
  constructor
  · intro h
    by_contra hb
    rw [Bool.not_eq_true] at hb
    apply h
    apply Nat.eq_of_testBit_eq
    intro i
    rw [Nat.testBit_and, Nat.zero_testBit, Nat.testBit_two_pow]
    by_cases hik : k = i
    · subst hik
      simp [hb]
    · simp [hik]
  · intro h hz
    have hbit : (m &&& 2 ^ k).testBit k = true := by
      rw [Nat.testBit_and, h, Nat.testBit_two_pow]
      simp
    rw [hz, Nat.zero_testBit] at hbit
    exact Bool.noConfusion hbit

/-- Bits of `m &&& ~(2^k)` at `mode_t` width: bit `i` survives exactly when
it was set in `m` and is not bit `k`. -/
theorem and_not_two_pow_testBit {m : Nat} (hm : m < 2 ^ 32) (k : Nat)
    (hk : k < 32) (i : Nat) :
    ((m &&& (MODE_BITS ^^^ 2 ^ k)).testBit i = true) ↔
      (m.testBit i = true ∧ i ≠ k) := by
  have hmb : MODE_BITS = 2 ^ 32 - 1 := rfl
  rw [hmb, Nat.testBit_and, Nat.testBit_xor, Nat.testBit_two_pow_sub_one,
    Nat.testBit_two_pow]
  by_cases hi : i < 32
  · simp only [hi, decide_True, Bool.true_xor, Bool.and_eq_true,
      Bool.not_eq_true', decide_eq_false_iff_not]
    constructor
    · rintro ⟨h1, h2⟩
      exact ⟨h1, fun hik => h2 hik.symm⟩
    · rintro ⟨h1, h2⟩
      exact ⟨h1, fun hik => h2 hik.symm⟩
  · have hmi : m.testBit i = false :=
      Nat.testBit_lt_two_pow
        (lt_of_lt_of_le hm (Nat.pow_le_pow_right (by norm_num) (le_of_not_lt hi)))
    simp [hmi]

/-- The set-id stripping of `copy_dir` clears exactly bit 11 (`S_ISUID`) and
bit 10 (`S_ISGID`) of the source mode and preserves every other bit. -/
theorem stripSetId_testBit {m : Nat} (hm : m < 2 ^ 32) (i : Nat) :
    ((stripSetId m).testBit i = true) ↔
      (m.testBit i = true ∧ i ≠ 11 ∧ i ≠ 10) := by
  have hU : S_ISUID = 2 ^ 11 := by decide
  have hG : S_ISGID = 2 ^ 10 := by decide
  have hm1 : m &&& (MODE_BITS ^^^ 2 ^ 11) < 2 ^ 32 :=
    lt_of_le_of_lt Nat.and_le_left hm
  simp only [stripSetId, hU, hG]
  by_cases hb11 : m.testBit 11 = true
  · rw [if_pos ((land_two_pow_ne_zero_iff m 11).mpr hb11)]
    by_cases hb10 : m.testBit 10 = true
    · have hc : (m &&& (MODE_BITS ^^^ 2 ^ 11)) &&& 2 ^ 10 ≠ 0 := by
        rw [land_two_pow_ne_zero_iff]
        rw [and_not_two_pow_testBit hm 11 (by norm_num) 10]
        exact ⟨hb10, by norm_num⟩
      rw [if_pos hc]
      rw [and_not_two_pow_testBit hm1 10 (by norm_num) i,
        and_not_two_pow_testBit hm 11 (by norm_num) i]
      tauto
    · have hc : ¬((m &&& (MODE_BITS ^^^ 2 ^ 11)) &&& 2 ^ 10 ≠ 0) := by
        rw [land_two_pow_ne_zero_iff]
        rw [Bool.not_eq_true]
        rw [Bool.eq_false_iff]
        intro hx
        rw [and_not_two_pow_testBit hm 11 (by norm_num) 10] at hx
        exact hb10 hx.1
      rw [if_neg hc]
      rw [and_not_two_pow_testBit hm 11 (by norm_num) i]
      rw [Bool.not_eq_true] at hb10
      constructor
      · rintro ⟨h1, h2⟩
        refine ⟨h1, h2, ?_⟩
        intro h10
        rw [h10, hb10] at h1
        exact Bool.noConfusion h1
      · rintro ⟨h1, h2, _⟩
        exact ⟨h1, h2⟩
  · rw [if_neg (fun hx => hb11 ((land_two_pow_ne_zero_iff m 11).mp hx))]
    rw [Bool.not_eq_true] at hb11
    by_cases hb10 : m.testBit 10 = true
    · rw [if_pos ((land_two_pow_ne_zero_iff m 10).mpr hb10)]
      rw [and_not_two_pow_testBit hm 10 (by norm_num) i]
      constructor
      · rintro ⟨h1, h2⟩
        refine ⟨h1, ?_, h2⟩
        intro h11
        rw [h11, hb11] at h1
        exact Bool.noConfusion h1
      · rintro ⟨h1, _, h3⟩
        exact ⟨h1, h3⟩
    · rw [if_neg (fun hx => hb10 ((land_two_pow_ne_zero_iff m 10).mp hx))]
      rw [Bool.not_eq_true] at hb10
      constructor
      · intro h1
        refine ⟨h1, ?_, ?_⟩
        · intro h11
          rw [h11, hb11] at h1
          exact Bool.noConfusion h1
        · intro h10
          rw [h10, hb10] at h1
          exact Bool.noConfusion h1
      · rintro ⟨h1, _, _⟩
        exact h1

/-- C3: for every skeleton entry classified as a regular file and actually
processed by the loop, the mode `copy_dir` passes to `copy_file` is exactly
the source mode with the set-user-id bit (bit 11) and the set-group-id bit
(bit 10) cleared and every other mode bit preserved, so no copied regular
file carries a set-id bit. -/
theorem copy_dir_strips_setid_on_files
    (env : FsEnv) (src_dir dst_dir n : String) (uid gid m : Nat)
    (hm : m < 2 ^ 32) (hdot : ¬(n = "." ∨ n = ".."))
    (hstat : env.lstatOk (dircat src_dir n) = true) :
    copyEntry env src_dir dst_dir uid gid (.file n m) =
      [.copyFileA (dircat src_dir n) (dircat dst_dir n) uid gid (stripSetId m)
        (copy_file env (dircat src_dir n) (dircat dst_dir n) uid gid
          (stripSetId m)).1] ∧
    ∀ i : Nat, ((stripSetId m).testBit i = true ↔
      (m.testBit i = true ∧ i ≠ 11 ∧ i ≠ 10)) := by
  refine ⟨?_, fun i => stripSetId_testBit hm i⟩
  simp [copyEntry, SkelEntry.name, hdot, hstat]

/-- Witness for C3 on mode 0o6755 = 3565 (both set-id bits set). -/
theorem copy_dir_strips_setid_on_files_witness :
    ((3565 : Nat) < 2 ^ 32 ∧
      ¬(("profile" : String) = "." ∨ ("profile" : String) = "..") ∧
      envT.lstatOk (dircat "/etc/skel" "profile") = true) ∧
    ((stripSetId 3565).testBit 11 = true ↔
      (Nat.testBit 3565 11 = true ∧ (11 : Nat) ≠ 11 ∧ (11 : Nat) ≠ 10)) :=
  ⟨⟨by decide, by decide, rfl⟩,
   (copy_dir_strips_setid_on_files envT "/etc/skel" "/home/alice" "profile"
      1001 1001 3565 (by decide) (by decide) rfl).2 11⟩

/-- C10: for a skeleton entry classified as a directory, `copy_dir` passes
the source `st_mode` unmodified to `create_dir` — the set-id stripping done
for regular files is not applied — so a set-gid source directory mode reaches
`create_dir` with the set-gid bit still set, and it differs from what the
regular-file stripping would have produced. -/
theorem copy_dir_passes_full_mode_for_directories
    (env : FsEnv) (src_dir dst_dir n : String) (uid gid m : Nat)
    (sub : List SkelEntry) (hm : m < 2 ^ 32)
    (hdot : ¬(n = "." ∨ n = ".."))
    (hstat : env.lstatOk (dircat src_dir n) = true)
    (hg : m.testBit 10 = true) :
    copyEntry env src_dir dst_dir uid gid (.dir n m sub) =
      .createDirA (dircat dst_dir n) uid gid m ::
        (if env.opendirOk (dircat src_dir n) = false then []
         else copyList env (dircat src_dir n) (dircat dst_dir n) uid gid sub) ∧
    stripSetId m ≠ m := by
  constructor
  · simp [copyEntry, SkelEntry.name, hdot, hstat]
  · intro hEq
    have h10 : (stripSetId m).testBit 10 = true := by
      rw [hEq]
      exact hg
    exact ((stripSetId_testBit hm 10).mp h10).2.2 rfl

/-- Witness for C10 on directory mode 0o2755 = 1517 (set-gid bit set). -/
theorem copy_dir_passes_full_mode_for_directories_witness :
    Nat.testBit 1517 10 = true ∧ stripSetId 1517 ≠ 1517 :=
  ⟨by decide,
   (copy_dir_passes_full_mode_for_directories envT "/etc/skel" "/home/alice"
      "sub" 1001 1001 1517 [] (by decide) (by decide) rfl (by decide)).2⟩

/-- C8: the destination of `copy_file` is opened `O_WRONLY|O_CREAT|O_EXCL`,
so when a file already exists at the destination the call returns -1, and
the `readdir` loop of `copy_dir` records that single failure and still
processes every remaining entry of the same directory, whose actions follow
unchanged. -/
theorem copy_file_excl_existing_dst_fails_loop_continues
    (env : FsEnv) (src_dir dst_dir n : String) (uid gid m : Nat)
    (rest : List SkelEntry)
    (hdot : ¬(n = "." ∨ n = ".."))
    (hstat : env.lstatOk (dircat src_dir n) = true)
    (hex : env.fileExists (dircat dst_dir n) = true) :
    (copy_file env (dircat src_dir n) (dircat dst_dir n) uid gid
        (stripSetId m)).1 = -1 ∧
    copyList env src_dir dst_dir uid gid (.file n m :: rest) =
      .copyFileA (dircat src_dir n) (dircat dst_dir n) uid gid
          (stripSetId m) (-1) ::
        copyList env src_dir dst_dir uid gid rest := by
  have hcf : (copy_file env (dircat src_dir n) (dircat dst_dir n) uid gid
      (stripSetId m)).1 = -1 := by
    unfold copy_file
    by_cases hso : env.srcOpenOk (dircat src_dir n) = false
    · rw [if_pos hso]
    · rw [if_neg hso, if_pos (by simp [hex])]
  refine ⟨hcf, ?_⟩
  show copyEntry env src_dir dst_dir uid gid (.file n m) ++
      copyList env src_dir dst_dir uid gid rest = _
  have hent : copyEntry env src_dir dst_dir uid gid (.file n m) =
      [.copyFileA (dircat src_dir n) (dircat dst_dir n) uid gid
        (stripSetId m) (-1)] := by
    simp [copyEntry, SkelEntry.name, hdot, hstat, hcf]
  rw [hent]
  rfl

/-- Witness for C8: an existing destination file makes the copy of that
entry fail. -/
theorem copy_file_excl_existing_dst_fails_loop_continues_witness :
    envDstExists.fileExists (dircat "/home/alice" "f") = true ∧
    (copy_file envDstExists (dircat "/etc/skel" "f") (dircat "/home/alice" "f")
      1001 1001 (stripSetId 420)).1 = -1 :=
  ⟨rfl,
   (copy_file_excl_existing_dst_fails_loop_continues envDstExists "/etc/skel"
      "/home/alice" "f" 1001 1001 420 [] (by decide) rfl rfl).1⟩

/-- C6 is false of the code: `copy_symlink` passes `sizeof(link_path)-1` as
the readlink buffer size, and `link_path` is a `char *`, so that is the size
of a pointer minus one — 7 bytes on an LP64 platform (3 on ILP32) — and only
the first 7 bytes of the link target are ever read.  A skeleton symlink with
target "/outside/elsewhere", which does not begin with the source root
"/etc/skel", is therefore not reproduced verbatim: the created symlink points
at "/outsid". -/
theorem copy_symlink_truncates_target :
    copy_symlink envLink "/etc/skel" "/etc/skel/lnk" "/home/alice"
        "/home/alice/lnk" 1001 1001 = (0, some "/outsid") ∧
    ("/outsid" : String) ≠ "/outside/elsewhere" :=
  ⟨rfl, by decide⟩

end Mkhome
